import Mathlib

/-!
Shallow embedding of the ACS/HUD affordability pipeline
(`backend/src/load_acs.py`, `backend/src/load_hud.py`, `backend/src/config.py`).

Modelling conventions:
* pandas/NumPy floating-point cells are modelled by `PFloat`: an exact
  rational together with the IEEE special values `nan`, `+inf`, `-inf`
  (rounding is not modelled; signed zero collapses to `0`).  `nan` doubles
  as the "absent" (`NaN`/`None`) marker, exactly as in a float64 column.
* Python string primitives used by the code (`in`, `.lower()`, `.strip()`,
  `.replace(",", "")`, `.endswith(...)`, `.split("!!")[0]`, `float(...)`)
  are given explicit executable models over `List Char` (ASCII-faithful).
* File-system and Excel/CSV I/O is the external boundary: a loader
  environment maps a (year, table) to either a loaded `RawTable` or a
  load failure, mirroring which exceptions `pd.read_csv`/`pd.read_excel`
  can raise at that point in the Python code.
-/

/-- IEEE-style float value: `nan` (also the pandas missing marker),
signed infinities, or a finite value modelled as an exact rational. -/
inductive PFloat where
  | nan
  | pinf
  | ninf
  | fin (q : ℚ)
deriving DecidableEq

/-- IEEE multiplication on the model (`numpy`/pandas semantics):
`nan` propagates, `inf * 0 = nan`, signs multiply. -/
def PFloat.mul : PFloat → PFloat → PFloat
  | .nan, _ => .nan
  | _, .nan => .nan
  | .pinf, .pinf => .pinf
  | .pinf, .ninf => .ninf
  | .ninf, .pinf => .ninf
  | .ninf, .ninf => .pinf
  | .pinf, .fin b => if b = 0 then .nan else if 0 < b then .pinf else .ninf
  | .ninf, .fin b => if b = 0 then .nan else if 0 < b then .ninf else .pinf
  | .fin a, .pinf => if a = 0 then .nan else if 0 < a then .pinf else .ninf
  | .fin a, .ninf => if a = 0 then .nan else if 0 < a then .ninf else .pinf
  | .fin a, .fin b => .fin (a * b)

/-- IEEE division on the model (`numpy`/pandas semantics): `nan`
propagates, `x/0 = ±inf` for `x ≠ 0`, `0/0 = nan`, `inf/inf = nan`,
finite-over-infinite is `0`. -/
def PFloat.div : PFloat → PFloat → PFloat
  | .nan, _ => .nan
  | _, .nan => .nan
  | .pinf, .pinf => .nan
  | .pinf, .ninf => .nan
  | .ninf, .pinf => .nan
  | .ninf, .ninf => .nan
  | .pinf, .fin b => if b < 0 then .ninf else .pinf
  | .ninf, .fin b => if b < 0 then .pinf else .ninf
  | .fin _, .pinf => .fin 0
  | .fin _, .ninf => .fin 0
  | .fin a, .fin b =>
    if b = 0 then (if a = 0 then .nan else if 0 < a then .pinf else .ninf)
    else .fin (a / b)

/-- Is `p` a head of the list `s`? (model of Python `str.startswith` at
the character level; used to build substring search). -/
def hasPre : List Char → List Char → Bool
  | [], _ => true
  | _ :: _, [] => false
  | a :: as, b :: bs => a == b && hasPre as bs

/-- Does `needle` occur contiguously inside `hay`? -/
def hasSub (needle : List Char) : List Char → Bool
  | [] => hasPre needle []
  | c :: rest => hasPre needle (c :: rest) || hasSub needle rest

/-- Model of Python `needle in hay` on strings. -/
def pyIn (needle hay : String) : Bool := hasSub needle.data hay.data

/-- ASCII lower-casing of one character (model of `str.lower` per char). -/
def lowerChar (c : Char) : Char :=
  if 'A' ≤ c ∧ c ≤ 'Z' then Char.ofNat (c.toNat + 32) else c

/-- Model of Python `str.lower()` (ASCII fragment). -/
def pyLower (s : String) : String := ⟨s.data.map lowerChar⟩

/-- Characters removed by Python `str.strip()` (ASCII whitespace). -/
def isPySpace (c : Char) : Bool :=
  c == ' ' || c == '\t' || c == '\n' || c == '\r' || c == '\x0b' || c == '\x0c'

/-- Model of Python `str.strip()`. -/
def pyStrip (s : String) : String :=
  ⟨((s.data.dropWhile isPySpace).reverse.dropWhile isPySpace).reverse⟩

/-- Model of Python `s.replace(",", "")`: all commas removed. -/
def stripCommas (s : String) : String := ⟨s.data.filter (fun c => c != ',')⟩

/-- Model of Python `s.endswith(suf)`. -/
def strEndsWith (s suf : String) : Bool := hasPre suf.data.reverse s.data.reverse

/-- Characters of `s` strictly before the first occurrence of `sep`
(the whole of `s` when `sep` does not occur). -/
def beforeSepChars (sep : List Char) : List Char → List Char
  | [] => []
  | c :: rest => if hasPre sep (c :: rest) then [] else c :: beforeSepChars sep rest

/-- Model of Python `s.split(sep)[0]`. -/
def beforeSep (sep s : String) : String := ⟨beforeSepChars sep.data s.data⟩

/-- Value of a list of decimal digit characters. -/
def digitsToNat (ds : List Char) : Nat :=
  ds.foldl (fun a c => a * 10 + (c.toNat - 48)) 0

/-- Exponent part of a Python float literal (after the `e`). -/
def parseExpChars (s : List Char) : Option Int :=
  match s with
  | '+' :: ds =>
    if !ds.isEmpty && ds.all Char.isDigit then some (Int.ofNat (digitsToNat ds)) else none
  | '-' :: ds =>
    if !ds.isEmpty && ds.all Char.isDigit then some (-(Int.ofNat (digitsToNat ds))) else none
  | ds =>
    if !ds.isEmpty && ds.all Char.isDigit then some (Int.ofNat (digitsToNat ds)) else none

/-- Apply a decimal exponent to a rational mantissa. -/
def applyExp (q : ℚ) (e : Int) : ℚ :=
  if 0 ≤ e then q * (10 : ℚ) ^ e.toNat else q / (10 : ℚ) ^ (-e).toNat

/-- Unsigned decimal part of a Python float literal:
`digits [. digits] [e exponent]`, at least one digit in the mantissa. -/
def parseDecimal (s : List Char) : Option ℚ :=
  let ip := s.takeWhile Char.isDigit
  let r1 := s.dropWhile Char.isDigit
  match r1 with
  | [] => if ip.isEmpty then none else some ((digitsToNat ip : ℚ))
  | '.' :: r2 =>
    let fp := r2.takeWhile Char.isDigit
    let r3 := r2.dropWhile Char.isDigit
    if ip.isEmpty && fp.isEmpty then none
    else
      let base : ℚ := (digitsToNat ip : ℚ) + (digitsToNat fp : ℚ) / (10 : ℚ) ^ fp.length
      match r3 with
      | [] => some base
      | 'e' :: es => (parseExpChars es).map (applyExp base)
      | _ => none
  | 'e' :: es =>
    if ip.isEmpty then none else (parseExpChars es).map (applyExp ((digitsToNat ip : ℚ)))
  | _ => none

/-- Model of Python `float(s)`: strips whitespace, handles an optional
sign, `inf`/`infinity`/`nan` (case-insensitive), and decimal/scientific
literals; `none` models a raised `ValueError`.  (Digit-group
underscores and non-ASCII digits are not modelled.) -/
def pyFloat (s : String) : Option PFloat :=
  let t := pyLower (pyStrip s)
  let signed : Bool × List Char :=
    match t.data with
    | '+' :: rest => (false, rest)
    | '-' :: rest => (true, rest)
    | rest => (false, rest)
  let neg := signed.1
  let body := signed.2
  if body = "inf".data ∨ body = "infinity".data then
    some (if neg then .ninf else .pinf)
  else if body = "nan".data then some .nan
  else
    match parseDecimal body with
    | some q => some (.fin (if neg then -q else q))
    | none => none

/-- One spreadsheet cell as seen through pandas: empty/NaN, a numeric
value, or a text value. -/
inductive Cell where
  | null
  | num (p : PFloat)
  | str (s : String)
deriving DecidableEq

/-- Python `str(...)` of a float (approximate repr; the pipeline never
branches on the exact text of a numeric cell). -/
def pyStrF : PFloat → String
  | .nan => "nan"
  | .pinf => "inf"
  | .ninf => "-inf"
  | .fin q => if q.den = 1 then toString q.num ++ ".0" else toString q

/-- Python `str(...)` of a cell (as used by `.astype(str)` and `str(row.get(...))`). -/
def pyStr : Cell → String
  | .null => "nan"
  | .num p => pyStrF p
  | .str s => s

/-- Model of `pd.isna` on one cell. -/
def pyIsNA : Cell → Bool
  | .null => true
  | .num p => p == .nan
  | .str _ => false

/-- A loaded 2-D table with named columns (`RawTable` of the spec);
each row's cells are aligned positionally with `cols`. -/
structure RawTable where
  cols : List String
  rows : List (List Cell)

/-- Positional lookup of the cell aligned with the first column named
`c`. -/
def lookupCell (c : String) : List String → List Cell → Cell
  | c0 :: cs, v :: vs => if c0 = c then v else lookupCell c cs vs
  | _, _ => Cell.null

/-- Cell of `row` under column `c` (first matching column name; pandas
label indexing for the tables the pipeline reads). -/
def RawTable.getCell (df : RawTable) (row : List Cell) (c : String) : Cell :=
  lookupCell c df.cols row

/-! ## ACS Table Extractor and Reconciler (`load_acs.py`) -/

/-- One tidy record produced by the Table Extractor
(`{"year": year, "geo_name": geo_name, table_id: value}` of
`_load_single_table`; the value column is stored after pandas converts
`None` to `NaN`, i.e. absent is `PFloat.nan`). -/
structure MetricRec where
  year : Int
  geo_name : String
  value : PFloat
deriving DecidableEq

/-- Does this row's "Label (Grouping)" text contain "Median",
case-insensitively?  Models
`df[label_col].astype(str).str.contains("Median", case=False, na=False)`
for one row. -/
def isMedianRow (df : RawTable) (r : List Cell) : Bool :=
  pyIn "median" (pyLower (pyStr (df.getCell r "Label (Grouping)")))

/-- Row selection of `_load_single_table` (lines 81-86): the first row
whose label contains "Median", else the first row of the table;
`none` only when the table has no rows at all (pandas `IndexError`). -/
def selectMedianRow (df : RawTable) : Option (List Cell) :=
  match df.rows.find? (isMedianRow df) with
  | some r => some r
  | none => df.rows.head?

/-- Per-cell value normalization of `_load_single_table` (lines 100-108):
`pd.isna` → absent; strings have commas removed and whitespace stripped,
empty string → absent, else `float(...)` (whose failure raises
`ValueError`); non-string non-NaN values round-trip through
`float(str(raw))`, which is the identity on the model. -/
def normalizeCell (raw : Cell) : Except String (Option PFloat) :=
  if pyIsNA raw then .ok none
  else
    match raw with
    | .str s =>
      let cleaned := pyStrip (stripCommas s)
      if cleaned = "" then .ok none
      else
        match pyFloat cleaned with
        | some v => .ok (some v)
        | none => .error "ValueError"
    | .num p => .ok (some p)
    | .null => .ok none

/-- The record-building loop of `_load_single_table` (lines 96-109): one
record per estimate column, geography is the column text before "!!",
a cell's `ValueError` aborts the whole extraction. -/
def buildRecs (year : Int) (df : RawTable) (row : List Cell) :
    List String → Except String (List MetricRec)
  | [] => .ok []
  | c :: cs =>
    match normalizeCell (df.getCell row c) with
    | .error e => .error e
    | .ok v =>
      match buildRecs year df row cs with
      | .error e => .error e
      | .ok rest => .ok (⟨year, beforeSep "!!" c, v.getD .nan⟩ :: rest)

/-- Model of `_load_single_table` of `load_acs.py`, applied to an already-loaded
table (file location and `pd.read_csv` are the environment boundary):
mandatory "Label (Grouping)" column, median-row selection, "!!Estimate"
column selection (fatal when empty), then per-column records. -/
def load_single_table (df : RawTable) (year : Int) : Except String (List MetricRec) :=
  if df.cols.contains "Label (Grouping)" then
    match selectMedianRow df with
    | none => .error "IndexError"
    | some row =>
      match df.cols.filter (fun c => strEndsWith c "!!Estimate") with
      | [] => .error "KeyError: no Estimate columns"
      | c :: cs => buildRecs year df row (c :: cs)
  else .error "KeyError: Label (Grouping)"

/-- An ACS loader environment: `(year, table_id)` to the loaded CSV, or
to the error raised by `_find_table_file` / `pd.read_csv`. -/
def AcsEnv : Type := Int → String → Except String RawTable

/-- Locate, load and extract one ACS table
(`_load_single_table(year, table_id)` including its I/O). -/
def acsTable (env : AcsEnv) (year : Int) (table_id : String) :
    Except String (List MetricRec) :=
  match env year table_id with
  | .error e => .error e
  | .ok df => load_single_table df year

/-- Join key test of `merge(on=["geo_name", "year"])`. -/
def mergeKey (y : Int) (g : String) (r : MetricRec) : Bool :=
  r.year == y && r.geo_name == g

/-- Result row of the first inner merge (income × home value). -/
structure Joined2 where
  year : Int
  geo_name : String
  v1 : PFloat
  v2 : PFloat
deriving DecidableEq

/-- Result row of the second inner merge (× rent). -/
structure Joined3 where
  year : Int
  geo_name : String
  v1 : PFloat
  v2 : PFloat
  v3 : PFloat
deriving DecidableEq

/-- pandas inner merge on `["geo_name", "year"]`: left row order, each
left row paired with every matching right row. -/
def merge2 (xs ys : List MetricRec) : List Joined2 :=
  xs.flatMap (fun x =>
    (ys.filter (mergeKey x.year x.geo_name)).map
      (fun yr => ⟨x.year, x.geo_name, x.value, yr.value⟩))

/-- Second pandas inner merge on `["geo_name", "year"]`. -/
def merge3 (xs : List Joined2) (ys : List MetricRec) : List Joined3 :=
  xs.flatMap (fun x =>
    (ys.filter (mergeKey x.year x.geo_name)).map
      (fun yr => ⟨x.year, x.geo_name, x.v1, x.v2, yr.value⟩))

/-- The `TARGET_GEOS` table of `config.py`. -/
def TARGET_GEOS : List (String × String) :=
  [("fergus_falls_city", "Fergus Falls city, Minnesota"),
   ("otter_tail_county", "Otter Tail County, Minnesota"),
   ("minneapolis_city", "Minneapolis city, Minnesota"),
   ("hennepin_county", "Hennepin County, Minnesota")]

/-- The allow-list `set(TARGET_GEOS.values())`. -/
def targetNames : List String := TARGET_GEOS.map (fun p => p.2)

/-- The per-year loop of `load_acs_affordability` (lines 136-146): load
the three tables, inner-merge them on `(geo_name, year)`, concatenate
the per-year frames in order. -/
def yearFrames (env : AcsEnv) : List Int → Except String (List Joined3)
  | [] => .ok []
  | y :: rest =>
    match acsTable env y "B19013" with
    | .error e => .error e
    | .ok income =>
      match acsTable env y "B25077" with
      | .error e => .error e
      | .ok home_value =>
        match acsTable env y "B25064" with
        | .error e => .error e
        | .ok rent =>
          match yearFrames env rest with
          | .error e => .error e
          | .ok more => .ok (merge3 (merge2 income home_value) rent ++ more)

/-- An `AffordabilityRecord`: one row of the final tidy DataFrame of
`load_acs_affordability` (after the renames of lines 153-160). -/
structure AffRow where
  year : Int
  geo_name : String
  median_household_income : PFloat
  median_home_value : PFloat
  median_gross_rent : PFloat
  price_to_income : PFloat
  rent_to_income : PFloat
deriving DecidableEq

/-- Ratio computation of lines 163-168 on one reconciled row:
`price_to_income = median_home_value / median_household_income`,
`rent_to_income = median_gross_rent * 12 / median_household_income`,
with pandas (IEEE) arithmetic on the float columns. -/
def toAffRow (r : Joined3) : AffRow :=
  ⟨r.year, r.geo_name, r.v1, r.v2, r.v3,
   PFloat.div r.v2 r.v1,
   PFloat.div (PFloat.mul r.v3 (.fin 12)) r.v1⟩

/-- Model of `load_acs_affordability(years)` of `load_acs.py`: per-year triple
inner merge, concatenation (`pd.concat` raises on an empty frame list,
i.e. an empty `years`), allow-list filter, then the derived ratios. -/
def load_acs_affordability (env : AcsEnv) (years : List Int) :
    Except String (List AffRow) :=
  if years.isEmpty then .error "ValueError: No objects to concatenate"
  else
    match yearFrames env years with
    | .error e => .error e
    | .ok all_years =>
      .ok ((all_years.filter (fun r => targetNames.contains r.geo_name)).map toAffRow)

/-! ## HUD Benchmark Extractor (`load_hud.py`) -/

/-- One expanded benchmark record (`{"year", "hud_fmr_2br", "geo_name"}`
built in `_expand_to_acs_geos`); the benchmark value is carried
verbatim as the raw cell. -/
structure HudRec where
  year : Int
  hud_fmr_2br : Cell
  geo_name : String
deriving DecidableEq

/-- Model of `_expand_to_acs_geos(row)` of `load_hud.py` (lines 113-145): the
county-name text selects zero or more canonical geographies; an
"otter tail" match yields the Otter Tail County / Fergus Falls city
pair, a "hennepin" match the Hennepin County / Minneapolis city pair,
each record carrying the row's year and benchmark value. -/
def expand_to_acs_geos (year : Int) (fmr : Cell) (county : Cell) : List HudRec :=
  let countyname := pyLower (pyStr county)
  (if pyIn "otter tail" countyname then
    [⟨year, fmr, "Otter Tail County, Minnesota"⟩,
     ⟨year, fmr, "Fergus Falls city, Minnesota"⟩]
   else []) ++
  (if pyIn "hennepin" countyname then
    [⟨year, fmr, "Hennepin County, Minnesota"⟩,
     ⟨year, fmr, "Minneapolis city, Minnesota"⟩]
   else [])

/-- Heuristic geography-column candidates (line 90): column names
containing "name" or "area", case-insensitively. -/
def hudNameCols (cols : List String) : List String :=
  cols.filter (fun c => pyIn "name" (pyLower c) || pyIn "area" (pyLower c))

/-- Heuristic 2BR-FMR column candidates (lines 96-100): column names
containing one of the fixed keyword variants, case-insensitively. -/
def hudFmrCols (cols : List String) : List String :=
  cols.filter (fun c =>
    (["2br", "2 br", "fmr2", "fmr_2"] : List String).any
      (fun k => pyIn k (pyLower c)))

/-- Column-selection policy of `load_hud_fmr` (lines 85-104): exact
names "areaname"/"fmr_2" when both exist, else the first heuristic
candidate of each kind, `none` (year skipped) when either heuristic
list is empty. -/
def hudSelectCols (cols : List String) : Option (String × String) :=
  if cols.contains "areaname" && cols.contains "fmr_2" then
    some ("areaname", "fmr_2")
  else
    match hudNameCols cols with
    | [] => none
    | g :: _ =>
      match hudFmrCols cols with
      | [] => none
      | f :: _ => some (g, f)

/-- What the environment supplies for one HUD year: no configured path
(line 66), configured file absent (line 70), `pd.read_excel` failure
(line 80), or the loaded workbook. -/
inductive HudSource where
  | notConfigured
  | missing
  | readError
  | table (df : RawTable)

/-- The body of the per-year loop of `load_hud_fmr` (lines 65-155):
skipped years contribute nothing; after column selection, the
`df[[geo_col, fmr_col, "countyname"]]` projection raises a `KeyError`
when "countyname" is not a column (this one is NOT caught); otherwise
each row is expanded through `_expand_to_acs_geos`.  (The projection /
rename to "hud_fmr_2br" is modelled by reading the two used cells
directly from the original table.) -/
def hudYear (src : HudSource) (year : Int) : Except String (List HudRec) :=
  match src with
  | .table df =>
    match hudSelectCols df.cols with
    | none => .ok []
    | some sel =>
      if df.cols.contains "countyname" then
        .ok (df.rows.flatMap (fun row =>
          expand_to_acs_geos year (df.getCell row sel.2) (df.getCell row "countyname")))
      else .error "KeyError: countyname"
  | _ => .ok []

/-- The multi-year loop of `load_hud_fmr`: frames concatenated in the
order of `years`; an uncaught exception in one year aborts the call. -/
def hudRecs (env : Int → HudSource) : List Int → Except String (List HudRec)
  | [] => .ok []
  | y :: rest =>
    match hudYear (env y) y with
    | .error e => .error e
    | .ok recs =>
      match hudRecs env rest with
      | .error e => .error e
      | .ok more => .ok (recs ++ more)

/-- The DataFrame returned by `load_hud_fmr`: its column list and its
records. -/
structure HudOut where
  cols : List String
  recs : List HudRec
deriving DecidableEq

/-- Model of `load_hud_fmr(years)` of `load_hud.py`: when no year contributed
records, an empty DataFrame with columns `[year, geo_name,
hud_fmr_2br]` (line 158); otherwise the concatenated records, whose
columns follow the record-dict key order `[year, hud_fmr_2br,
geo_name]`. -/
def load_hud_fmr (env : Int → HudSource) (years : List Int) : Except String HudOut :=
  match hudRecs env years with
  | .error e => .error e
  | .ok recs =>
    if recs.isEmpty then .ok ⟨["year", "geo_name", "hud_fmr_2br"], []⟩
    else .ok ⟨["year", "hud_fmr_2br", "geo_name"], recs⟩

/-- The four canonical geography strings that `_expand_to_acs_geos` can
emit. -/
def hudGeoNames : List String :=
  ["Otter Tail County, Minnesota", "Fergus Falls city, Minnesota",
   "Hennepin County, Minnesota", "Minneapolis city, Minnesota"]

/-! ## Concrete fixture tables and environments (witness inputs) -/

/-- ACS income table fixture, 2022: one median row, two geographies,
thousand-separated values; Becker County is absent from the rent table
and from the allow-list. -/
def tInc : RawTable :=
  ⟨["Label (Grouping)",
    "Otter Tail County, Minnesota!!Estimate",
    "Otter Tail County, Minnesota!!Margin of Error",
    "Becker County, Minnesota!!Estimate"],
   [[.str "Median Household Income", .str "50,000", .str "1,500", .str "60000"]]⟩

/-- ACS home-value table fixture, 2022. -/
def tHv : RawTable :=
  ⟨["Label (Grouping)",
    "Otter Tail County, Minnesota!!Estimate",
    "Becker County, Minnesota!!Estimate"],
   [[.str "Median Home Value", .str "200000", .str "150000"]]⟩

/-- ACS rent table fixture, 2022: Becker County has no rent row. -/
def tRent : RawTable :=
  ⟨["Label (Grouping)", "Otter Tail County, Minnesota!!Estimate"],
   [[.str "Median Gross Rent", .str "1000"]]⟩

/-- ACS loader environment serving the three 2022 fixtures. -/
def envA : AcsEnv := fun y tid =>
  if y = 2022 then
    if tid = "B19013" then .ok tInc
    else if tid = "B25077" then .ok tHv
    else if tid = "B25064" then .ok tRent
    else .error "FileNotFoundError"
  else .error "FileNotFoundError"

/-- The reconciled row the `envA` fixtures produce. -/
def rowA : AffRow :=
  ⟨2022, "Otter Tail County, Minnesota",
   .fin 50000, .fin 200000, .fin 1000, .fin 4, .fin (6 / 25)⟩

/-- Income table with a literal zero median income. -/
def tIncZero : RawTable :=
  ⟨["Label (Grouping)", "Otter Tail County, Minnesota!!Estimate"],
   [[.str "Median Household Income", .str "0"]]⟩

/-- Home-value table paired with `tIncZero`. -/
def tHvZero : RawTable :=
  ⟨["Label (Grouping)", "Otter Tail County, Minnesota!!Estimate"],
   [[.str "Median Home Value", .str "200000"]]⟩

/-- Rent table paired with `tIncZero`. -/
def tRentZero : RawTable :=
  ⟨["Label (Grouping)", "Otter Tail County, Minnesota!!Estimate"],
   [[.str "Median Gross Rent", .str "1000"]]⟩

/-- ACS loader environment with a zero-income geography. -/
def envZero : AcsEnv := fun y tid =>
  if y = 2022 then
    if tid = "B19013" then .ok tIncZero
    else if tid = "B25077" then .ok tHvZero
    else if tid = "B25064" then .ok tRentZero
    else .error "FileNotFoundError"
  else .error "FileNotFoundError"

/-- ACS table whose first estimate cell is the non-numeric text "N/A". -/
def tNA : RawTable :=
  ⟨["Label (Grouping)",
    "Otter Tail County, Minnesota!!Estimate",
    "Becker County, Minnesota!!Estimate"],
   [[.str "Median Gross Rent", .str "N/A", .str "850"]]⟩

/-- ACS table with one Estimate/Margin-of-Error pair whose estimate
cell is the non-numeric text "abc". -/
def tBad5 : RawTable :=
  ⟨["Label (Grouping)",
    "Clay County, Minnesota!!Estimate",
    "Clay County, Minnesota!!Margin of Error"],
   [[.str "Median value (dollars)", .str "abc", .str "5"]]⟩

/-- ACS table none of whose rows has a "Median" label. -/
def tNoMedian : RawTable :=
  ⟨["Label (Grouping)", "Otter Tail County, Minnesota!!Estimate"],
   [[.str "Total", .str "17"], [.str "Other", .str "29"]]⟩

/-- ACS table with exactly the paired `<Geo>!!Estimate` /
`<Geo>!!Margin of Error` column layout for two geographies. -/
def tPairs : RawTable :=
  ⟨["Label (Grouping)",
    "Otter Tail County, Minnesota!!Estimate",
    "Otter Tail County, Minnesota!!Margin of Error",
    "Hennepin County, Minnesota!!Estimate",
    "Hennepin County, Minnesota!!Margin of Error"],
   [[.str "Median Gross Rent", .str "850", .str "25", .str "1,200", .str "40"]]⟩

/-- HUD workbook fixture with the canonical column names and an Otter
Tail County row. -/
def tHudGood : RawTable :=
  ⟨["areaname", "fmr_2", "countyname"],
   [[.str "Fergus Falls, MN MSA", .num (.fin 700), .str "Otter Tail County"]]⟩

/-- HUD workbook fixture that loads but has no "countyname" column. -/
def tHudNoCounty : RawTable :=
  ⟨["areaname", "fmr_2"], [[.str "Somewhere", .num (.fin 625)]]⟩

/-- HUD workbook fixture with a geography column but no plausible
2BR-FMR column. -/
def tHudNoFmr : RawTable :=
  ⟨["areaname", "countyname"], [[.str "Somewhere", .str "Hennepin County"]]⟩

/-- HUD environment: 2013 loads a workbook lacking "countyname", 2014
loads a good workbook. -/
def envBad : Int → HudSource := fun y =>
  if y = 2013 then .table tHudNoCounty
  else if y = 2014 then .table tHudGood
  else .notConfigured

/-- HUD environment: the 2013 workbook fails to load, 2014 is good. -/
def envIso : Int → HudSource := fun y =>
  if y = 2013 then .readError
  else if y = 2014 then .table tHudGood
  else .notConfigured

/-- HUD environment: 2015 loads a workbook with no plausible FMR
column, 2016 is good. -/
def envSkip : Int → HudSource := fun y =>
  if y = 2015 then .table tHudNoFmr
  else if y = 2016 then .table tHudGood
  else .notConfigured

/-- HUD environment serving only the good 2014 workbook. -/
def envGood : Int → HudSource := fun y =>
  if y = 2014 then .table tHudGood else .notConfigured

/-- HUD environment with nothing configured. -/
def envNone : Int → HudSource := fun _ => .notConfigured

/-! ## Helper lemmas -/

theorem sdata_append (a b : String) : (a ++ b).data = a.data ++ b.data := rfl

theorem hasPre_append_self (p t : List Char) : hasPre p (p ++ t) = true := by
  induction p with
  | nil => rfl
  | cons a as ih => simp [hasPre, ih]

theorem endsWith_append_self (g suf : String) : strEndsWith (g ++ suf) suf = true := by
  unfold strEndsWith
  rw [sdata_append, List.reverse_append]
  exact hasPre_append_self _ _

theorem endsWith_margin (g : String) :
    strEndsWith (g ++ "!!Margin of Error") "!!Estimate" = false := by
  unfold strEndsWith
  rw [sdata_append, List.reverse_append]
  have h1 : "!!Estimate".data.reverse = 'e' :: "tamitsE!!".data := by rfl
  have h2 : "!!Margin of Error".data.reverse = 'r' :: "orrE fo nigraM!!".data := by rfl
  rw [h1, h2, List.cons_append]
  simp [hasPre]

theorem filter_estimate_pairs (geos : List String) :
    (geos.flatMap (fun g => [g ++ "!!Estimate", g ++ "!!Margin of Error"])).filter
      (fun c => strEndsWith c "!!Estimate") =
    geos.map (fun g => g ++ "!!Estimate") := by
  induction geos with
  | nil => rfl
  | cons g gs ih =>
    simp only [List.flatMap_cons, List.cons_append, List.nil_append, List.filter_append,
      List.filter_cons, endsWith_append_self, endsWith_margin, List.filter_nil, ih,
      List.map_cons]
    rfl

theorem buildRecs_year (year : Int) (df : RawTable) (row : List Cell)
    (cs : List String) (recs : List MetricRec)
    (h : buildRecs year df row cs = .ok recs) :
    ∀ r ∈ recs, r.year = year := by
  induction cs generalizing recs with
  | nil =>
    unfold buildRecs at h
    cases h
    intro r hr
    cases hr
  | cons c ct ih =>
    unfold buildRecs at h
    cases hnc : normalizeCell (df.getCell row c) with
    | error e => rw [hnc] at h; cases h
    | ok v =>
      rw [hnc] at h
      cases hrest : buildRecs year df row ct with
      | error e => rw [hrest] at h; cases h
      | ok rest =>
        rw [hrest] at h
        cases h
        intro r hr
        rcases List.mem_cons.1 hr with hr | hr
        · rw [hr]
        · exact ih rest hrest r hr

theorem load_single_table_year (df : RawTable) (year : Int) (recs : List MetricRec)
    (h : load_single_table df year = .ok recs) :
    ∀ r ∈ recs, r.year = year := by
  unfold load_single_table at h
  split at h
  · cases hsel : selectMedianRow df with
    | none => rw [hsel] at h; cases h
    | some row =>
      rw [hsel] at h
      cases hest : df.cols.filter (fun c => strEndsWith c "!!Estimate") with
      | nil => rw [hest] at h; cases h
      | cons c cs => rw [hest] at h; exact buildRecs_year year df row _ recs h
  · cases h

theorem acsTable_year (env : AcsEnv) (year : Int) (tid : String) (recs : List MetricRec)
    (h : acsTable env year tid = .ok recs) :
    ∀ r ∈ recs, r.year = year := by
  unfold acsTable at h
  cases he : env year tid with
  | error e => rw [he] at h; cases h
  | ok df => rw [he] at h; exact load_single_table_year df year recs h

theorem mem_merge2 (xs ys : List MetricRec) (j : Joined2) (hj : j ∈ merge2 xs ys) :
    ∃ x ∈ xs, ∃ yr ∈ ys,
      j.year = x.year ∧ j.geo_name = x.geo_name ∧
      yr.year = x.year ∧ yr.geo_name = x.geo_name := by
  unfold merge2 at hj
  rcases List.mem_flatMap.1 hj with ⟨x, hx, hmem⟩
  rcases List.mem_map.1 hmem with ⟨yr, hyr, hjeq⟩
  have hkey := List.of_mem_filter hyr
  simp only [mergeKey, Bool.and_eq_true, beq_iff_eq] at hkey
  refine ⟨x, hx, yr, List.mem_of_mem_filter hyr, ?_, ?_, hkey.1, hkey.2⟩
  · rw [← hjeq]
  · rw [← hjeq]

theorem mem_merge3 (xs : List Joined2) (ys : List MetricRec) (j : Joined3)
    (hj : j ∈ merge3 xs ys) :
    ∃ x ∈ xs, ∃ yr ∈ ys,
      j.year = x.year ∧ j.geo_name = x.geo_name ∧
      yr.year = x.year ∧ yr.geo_name = x.geo_name := by
  unfold merge3 at hj
  rcases List.mem_flatMap.1 hj with ⟨x, hx, hmem⟩
  rcases List.mem_map.1 hmem with ⟨yr, hyr, hjeq⟩
  have hkey := List.of_mem_filter hyr
  simp only [mergeKey, Bool.and_eq_true, beq_iff_eq] at hkey
  refine ⟨x, hx, yr, List.mem_of_mem_filter hyr, ?_, ?_, hkey.1, hkey.2⟩
  · rw [← hjeq]
  · rw [← hjeq]

theorem mem_yearFrames (env : AcsEnv) (years : List Int) (frames : List Joined3)
    (h : yearFrames env years = .ok frames) (j : Joined3) (hj : j ∈ frames) :
    ∃ y ∈ years, ∃ inc hv rent,
      acsTable env y "B19013" = .ok inc ∧
      acsTable env y "B25077" = .ok hv ∧
      acsTable env y "B25064" = .ok rent ∧
      j ∈ merge3 (merge2 inc hv) rent := by
  induction years generalizing frames with
  | nil =>
    unfold yearFrames at h
    cases h
    cases hj
  | cons y rest ih =>
    unfold yearFrames at h
    cases h1 : acsTable env y "B19013" with
    | error e => rw [h1] at h; cases h
    | ok inc =>
      rw [h1] at h
      cases h2 : acsTable env y "B25077" with
      | error e => rw [h2] at h; cases h
      | ok hv =>
        rw [h2] at h
        cases h3 : acsTable env y "B25064" with
        | error e => rw [h3] at h; cases h
        | ok rent =>
          rw [h3] at h
          cases h4 : yearFrames env rest with
          | error e => rw [h4] at h; cases h
          | ok more =>
            rw [h4] at h
            cases h
            rcases List.mem_append.1 hj with hj | hj
            · exact ⟨y, List.mem_cons_self y rest, inc, hv, rent, h1, h2, h3, hj⟩
            · rcases ih more h4 hj with ⟨z, hz, inc', hv', rent', g1, g2, g3, g4⟩
              exact ⟨z, List.mem_cons_of_mem y hz, inc', hv', rent', g1, g2, g3, g4⟩

/-- Shared witness evaluation: the 2022 fixtures reconcile to a single
Otter Tail County row with `price_to_income = 4` and
`rent_to_income = 0.24` (the only geography present in all three
tables that is also on the allow-list). -/
theorem evalA : load_acs_affordability envA [2022] = .ok [rowA] := by
  have h : load_acs_affordability envA [2022] =
      .ok (List.map toAffRow
        [⟨2022, "Otter Tail County, Minnesota", .fin 50000, .fin 200000, .fin 1000⟩]) := by
    rfl
  rw [h]
  simp only [List.map_cons, List.map_nil, toAffRow, rowA, PFloat.div, PFloat.mul]
  norm_num

/-! ## Claim theorems -/

/-- C1: with a zero median income and positive home value / rent, the
ratio columns computed by `load_acs_affordability` are `+inf` (pandas
IEEE division), not absent — refuting "whenever the denominator is
absent or zero, both ratios are absent … never infinite", which is
also what the code's own comment ("handle division by zero / missing
as NaN") promises. -/
theorem acs_ratio_divide_by_zero_is_infinite :
    load_acs_affordability envZero [2022] =
      .ok [⟨2022, "Otter Tail County, Minnesota",
            .fin 0, .fin 200000, .fin 1000, .pinf, .pinf⟩] := by
  have h : load_acs_affordability envZero [2022] =
      .ok (List.map toAffRow
        [⟨2022, "Otter Tail County, Minnesota", .fin 0, .fin 200000, .fin 1000⟩]) := by
    rfl
  rw [h]
  simp only [List.map_cons, List.map_nil, toAffRow, PFloat.div, PFloat.mul]
  norm_num

/-- C8: Table Extractor row selection returns the first row whose label
contains "Median" case-insensitively, else falls back to the first row
of the table; for every table with at least one row (and the mandatory
label column) a row is always selected. -/
theorem row_selection_median_or_first (df : RawTable)
    (_hlab : df.cols.contains "Label (Grouping)" = true)
    (hrows : df.rows ≠ []) :
    ∃ row, selectMedianRow df = some row ∧
      (df.rows.find? (isMedianRow df) = some row ∨
        (df.rows.find? (isMedianRow df) = none ∧ df.rows.head? = some row)) := by
  unfold selectMedianRow
  cases hfind : df.rows.find? (isMedianRow df) with
  | some r => exact ⟨r, rfl, Or.inl rfl⟩
  | none =>
    cases hr : df.rows with
    | nil => exact absurd hr hrows
    | cons a t => exact ⟨a, rfl, Or.inr ⟨rfl, rfl⟩⟩

/-- C8 witness: on a table with no "Median" label anywhere, a row (the
first) is still selected. -/
theorem row_selection_median_or_first_witness :
    ∃ row, selectMedianRow tNoMedian = some row ∧
      (tNoMedian.rows.find? (isMedianRow tNoMedian) = some row ∨
        (tNoMedian.rows.find? (isMedianRow tNoMedian) = none ∧
          tNoMedian.rows.head? = some row)) :=
  row_selection_median_or_first tNoMedian (by rfl) (by decide)

/-- C4: `_expand_to_acs_geos` emits, for each matching county token,
exactly the configured pair of canonical geographies, each carrying
the row's benchmark value and year verbatim; a county name matching no
mapping entry yields zero records. -/
theorem expand_to_acs_geos_mapping (y : Int) (fmr county : Cell) :
    (pyIn "otter tail" (pyLower (pyStr county)) = true →
      pyIn "hennepin" (pyLower (pyStr county)) = false →
      expand_to_acs_geos y fmr county =
        [⟨y, fmr, "Otter Tail County, Minnesota"⟩,
         ⟨y, fmr, "Fergus Falls city, Minnesota"⟩]) ∧
    (pyIn "otter tail" (pyLower (pyStr county)) = false →
      pyIn "hennepin" (pyLower (pyStr county)) = true →
      expand_to_acs_geos y fmr county =
        [⟨y, fmr, "Hennepin County, Minnesota"⟩,
         ⟨y, fmr, "Minneapolis city, Minnesota"⟩]) ∧
    (pyIn "otter tail" (pyLower (pyStr county)) = false →
      pyIn "hennepin" (pyLower (pyStr county)) = false →
      expand_to_acs_geos y fmr county = []) := by
  refine ⟨fun h1 h2 => ?_, fun h1 h2 => ?_, fun h1 h2 => ?_⟩ <;>
    simp [expand_to_acs_geos, h1, h2]

/-- C4 witness: an Otter Tail County row with FMR 700 expands to
exactly the county/principal-city pair for 2013. -/
theorem expand_to_acs_geos_mapping_witness :
    expand_to_acs_geos 2013 (Cell.num (.fin 700)) (Cell.str "Otter Tail County, MN") =
      [⟨2013, Cell.num (.fin 700), "Otter Tail County, Minnesota"⟩,
       ⟨2013, Cell.num (.fin 700), "Fergus Falls city, Minnesota"⟩] :=
  (expand_to_acs_geos_mapping 2013 (Cell.num (.fin 700))
    (Cell.str "Otter Tail County, MN")).1 (by rfl) (by rfl)

/-- C9: every row of a successful `load_acs_affordability` result has a
geography on the configured allow-list (`TARGET_GEOS` values, exact
string match). -/
theorem allowlist_filter_only (env : AcsEnv) (years : List Int) (out : List AffRow)
    (h : load_acs_affordability env years = .ok out) :
    ∀ r ∈ out, targetNames.contains r.geo_name = true := by
  unfold load_acs_affordability at h
  split at h
  · cases h
  · cases hy : yearFrames env years with
    | error e => rw [hy] at h; cases h
    | ok frames =>
      rw [hy] at h
      cases h
      intro r hr
      rcases List.mem_map.1 hr with ⟨j, hj, hjr⟩
      have hp := List.of_mem_filter hj
      rw [← hjr]
      exact hp

/-- C9 witness: the reconciled fixture row's geography is on the
allow-list (the fixture tables also contained Becker County, which is
not, and it is absent from the output). -/
theorem allowlist_filter_only_witness :
    targetNames.contains rowA.geo_name = true :=
  allowlist_filter_only envA [2022] [rowA] evalA rowA (List.mem_singleton.mpr rfl)

/-- Records of a skipped / failed year: each of the three load-failure
sources, and a loaded table defeating column selection, contribute an
empty record list without raising. -/
theorem hudYear_skip (src : HudSource) (y : Int)
    (h : src = .notConfigured ∨ src = .missing ∨ src = .readError ∨
         (∃ df, src = .table df ∧ hudSelectCols df.cols = none)) :
    hudYear src y = .ok [] := by
  rcases h with h | h | h | ⟨df, h, hsel⟩ <;> subst h
  · rfl
  · rfl
  · rfl
  · simp [hudYear, hsel]

/-- One unfolding step of the HUD per-year loop. -/
theorem hudRecs_cons (env : Int → HudSource) (y : Int) (rest : List Int) :
    hudRecs env (y :: rest) =
      match hudYear (env y) y with
      | .error e => .error e
      | .ok recs =>
        match hudRecs env rest with
        | .error e => .error e
        | .ok more => .ok (recs ++ more) := rfl

/-- C2 counterexample: a 2013 workbook that loads successfully but has
no "countyname" column raises a `KeyError` that escapes `load_hud_fmr`,
so the good 2014 year is lost as well — the claim "a per-year failure
never propagates out of load_hud_fmr" is false as stated. -/
theorem hud_missing_countyname_propagates :
    load_hud_fmr envBad [2013, 2014] = .error "KeyError: countyname" := by rfl

/-- C2 (amended): a year whose benchmark source is not configured,
missing, or fails to load is skipped in place — the result over any
year list equals the result with that year removed, so every other
year's extraction completes and appears. -/
theorem hud_load_failure_isolated (env : Int → HudSource) (years : List Int) (y : Int)
    (h : env y = .notConfigured ∨ env y = .missing ∨ env y = .readError) :
    load_hud_fmr env years = load_hud_fmr env (years.filter (fun z => z != y)) := by
  suffices hs : hudRecs env years = hudRecs env (years.filter (fun z => z != y)) by
    unfold load_hud_fmr
    rw [hs]
  induction years with
  | nil => rfl
  | cons z rest ih =>
    by_cases hz : z = y
    · subst hz
      have hy : hudYear (env z) z = .ok [] :=
        hudYear_skip (env z) z (by
          rcases h with h | h | h
          · exact Or.inl h
          · exact Or.inr (Or.inl h)
          · exact Or.inr (Or.inr (Or.inl h)))
      have hfz : (z :: rest).filter (fun w => w != z) = rest.filter (fun w => w != z) := by
        simp [List.filter_cons]
      rw [hfz, ← ih, hudRecs_cons, hy]
      cases hrest : hudRecs env rest with
      | error e => rfl
      | ok more => simp
    · have hfz : (z :: rest).filter (fun w => w != y) = z :: rest.filter (fun w => w != y) := by
        simp [List.filter_cons, hz]
      rw [hfz, hudRecs_cons, hudRecs_cons, ih]

/-- C2 witness: with the 2013 workbook unreadable and 2014 good,
extraction over both years equals extraction over the list with 2013
filtered out (so 2014 still completes and appears). -/
theorem hud_load_failure_isolated_witness :
    load_hud_fmr envIso [2013, 2014] =
      load_hud_fmr envIso ([2013, 2014].filter (fun z => z != 2013)) :=
  hud_load_failure_isolated envIso [2013, 2014] 2013 (Or.inr (Or.inr rfl))

/-- One unfolding step of `hudYear` on a loaded table. -/
theorem hudYear_table (df : RawTable) (z : Int) :
    hudYear (.table df) z =
      match hudSelectCols df.cols with
      | none => .ok []
      | some sel =>
        if df.cols.contains "countyname" then
          .ok (df.rows.flatMap (fun row =>
            expand_to_acs_geos z (df.getCell row sel.2) (df.getCell row "countyname")))
        else .error "KeyError: countyname" := rfl

/-- Every expanded record carries one of the four canonical geography
strings and the source year. -/
theorem expand_geo_mem (y : Int) (fmr county : Cell) (r : HudRec)
    (hr : r ∈ expand_to_acs_geos y fmr county) :
    r.geo_name ∈ hudGeoNames ∧ r.year = y := by
  unfold expand_to_acs_geos at hr
  rcases List.mem_append.1 hr with h | h
  · split at h
    · rcases List.mem_cons.1 h with h | h
      · subst h; exact ⟨by simp [hudGeoNames], rfl⟩
      · rcases List.mem_cons.1 h with h | h
        · subst h; exact ⟨by simp [hudGeoNames], rfl⟩
        · cases h
    · cases h
  · split at h
    · rcases List.mem_cons.1 h with h | h
      · subst h; exact ⟨by simp [hudGeoNames], rfl⟩
      · rcases List.mem_cons.1 h with h | h
        · subst h; exact ⟨by simp [hudGeoNames], rfl⟩
        · cases h
    · cases h

/-- Every record of a successful `hudYear` call is an expansion record:
it carries a canonical geography and the iteration year. -/
theorem hudYear_mem (src : HudSource) (z : Int) (l : List HudRec)
    (h : hudYear src z = .ok l) (r : HudRec) (hr : r ∈ l) :
    r.geo_name ∈ hudGeoNames ∧ r.year = z := by
  cases src with
  | notConfigured => cases h; cases hr
  | missing => cases h; cases hr
  | readError => cases h; cases hr
  | table df =>
    rw [hudYear_table] at h
    cases hsel : hudSelectCols df.cols with
    | none => rw [hsel] at h; cases h; cases hr
    | some sel =>
      rw [hsel] at h
      dsimp only at h
      split at h
      · cases h
        rcases List.mem_flatMap.1 hr with ⟨row, _, hmem⟩
        exact expand_geo_mem z (df.getCell row sel.2) (df.getCell row "countyname") r hmem
      · cases h

/-- Every record of a successful `hudRecs` run comes from the
`hudYear` call of some listed year. -/
theorem hudRecs_mem (env : Int → HudSource) (years : List Int) (recs : List HudRec)
    (h : hudRecs env years = .ok recs) (r : HudRec) (hr : r ∈ recs) :
    ∃ z ∈ years, ∃ l, hudYear (env z) z = .ok l ∧ r ∈ l := by
  induction years generalizing recs with
  | nil => cases h; cases hr
  | cons z rest ih =>
    rw [hudRecs_cons] at h
    cases hz : hudYear (env z) z with
    | error e => rw [hz] at h; cases h
    | ok l =>
      rw [hz] at h
      cases hrest : hudRecs env rest with
      | error e => rw [hrest] at h; cases h
      | ok more =>
        rw [hrest] at h
        cases h
        rcases List.mem_append.1 hr with hm | hm
        · exact ⟨z, List.mem_cons_self z rest, l, hz, hm⟩
        · rcases ih more hrest hm with ⟨w, hw, l', hl', hm'⟩
          exact ⟨w, List.mem_cons_of_mem z hw, l', hl', hm'⟩

/-- C6: HUD column selection uses the exact names "areaname"/"fmr_2"
when both exist; otherwise the first heuristic geography candidate
(name containing "name"/"area") and the first heuristic FMR candidate
(name containing a 2BR keyword variant); if either heuristic search is
empty the selection is `none` and that year contributes no records to
`load_hud_fmr` while the run still succeeds for the other years. -/
theorem hud_column_selection_policy :
    (∀ cols : List String, cols.contains "areaname" = true → cols.contains "fmr_2" = true →
      hudSelectCols cols = some ("areaname", "fmr_2")) ∧
    (∀ cols : List String, hudNameCols cols = [] →
      (cols.contains "areaname" && cols.contains "fmr_2") = false →
      hudSelectCols cols = none) ∧
    (∀ (cols : List String) (g : String) (gs : List String), hudNameCols cols = g :: gs →
      hudFmrCols cols = [] →
      (cols.contains "areaname" && cols.contains "fmr_2") = false →
      hudSelectCols cols = none) ∧
    (∀ (cols : List String) (g f : String) (gs fs : List String),
      hudNameCols cols = g :: gs → hudFmrCols cols = f :: fs →
      (cols.contains "areaname" && cols.contains "fmr_2") = false →
      hudSelectCols cols = some (g, f)) ∧
    (∀ (env : Int → HudSource) (years : List Int) (y : Int) (df : RawTable) (out : HudOut),
      env y = HudSource.table df → hudSelectCols df.cols = none →
      load_hud_fmr env years = .ok out → ∀ r ∈ out.recs, r.year ≠ y) := by
  refine ⟨?_, ?_, ?_, ?_, ?_⟩
  · intro cols h1 h2
    unfold hudSelectCols
    rw [h1, h2]
    rfl
  · intro cols hname hc
    unfold hudSelectCols
    rw [hc, hname]
    rfl
  · intro cols g gs hname hfmr hc
    unfold hudSelectCols
    rw [hc, hname, hfmr]
    rfl
  · intro cols g f gs fs hname hfmr hc
    unfold hudSelectCols
    rw [hc, hname, hfmr]
    rfl
  · intro env years y df out henv hsel hload r hr hyear
    unfold load_hud_fmr at hload
    cases hrecs : hudRecs env years with
    | error e => rw [hrecs] at hload; cases hload
    | ok recs =>
      rw [hrecs] at hload
      dsimp only at hload
      split at hload
      · cases hload
        cases hr
      · cases hload
        rcases hudRecs_mem env years recs hrecs r hr with ⟨z, _, l, hl, hm⟩
        have hz : r.year = z := (hudYear_mem (env z) z l hl r hm).2
        rw [hyear] at hz
        rw [← hz] at hl
        rw [henv, hudYear_table, hsel] at hl
        cases hl
        cases hm

/-- C6 witness: exact names win when both are present; with `envSkip`
(the 2015 workbook has no plausible FMR column) the output records are
all from 2016, never 2015. -/
theorem hud_column_selection_policy_witness :
    hudSelectCols ["areaname", "fmr_2", "countyname"] = some ("areaname", "fmr_2") ∧
    (∀ r ∈ (HudOut.mk ["year", "hud_fmr_2br", "geo_name"]
        [⟨2016, Cell.num (.fin 700), "Otter Tail County, Minnesota"⟩,
         ⟨2016, Cell.num (.fin 700), "Fergus Falls city, Minnesota"⟩]).recs,
      r.year ≠ 2015) :=
  ⟨hud_column_selection_policy.1 ["areaname", "fmr_2", "countyname"] (by rfl) (by rfl),
   hud_column_selection_policy.2.2.2.2 envSkip [2015, 2016] 2015 tHudNoFmr _
     (by rfl) (by rfl) (by rfl)⟩

/-- C10: every record of a successful `load_hud_fmr` result carries one
of the four canonical geography strings, and when no year yields any
record the result is an empty DataFrame with exactly the columns
`[year, geo_name, hud_fmr_2br]`. -/
theorem hud_output_geos_and_columns (env : Int → HudSource) (years : List Int)
    (out : HudOut) (h : load_hud_fmr env years = .ok out) :
    (∀ r ∈ out.recs, r.geo_name ∈ hudGeoNames) ∧
    (out.recs = [] → out.cols = ["year", "geo_name", "hud_fmr_2br"]) := by
  unfold load_hud_fmr at h
  cases hrecs : hudRecs env years with
  | error e => rw [hrecs] at h; cases h
  | ok recs =>
    rw [hrecs] at h
    dsimp only at h
    by_cases hemp : recs.isEmpty = true
    · rw [if_pos hemp] at h
      cases h
      exact ⟨fun r hr => absurd hr (by simp), fun _ => rfl⟩
    · rw [if_neg hemp] at h
      cases h
      refine ⟨fun r hr => ?_, fun hempty => ?_⟩
      · rcases hudRecs_mem env years recs hrecs r hr with ⟨z, _, l, hl, hm⟩
        exact (hudYear_mem (env z) z l hl r hm).1
      · exact absurd (by rw [show recs = [] from hempty]; rfl) hemp

/-- C10 witness: the good 2014 fixture produces only canonical
geographies, and the empty environment yields the empty DataFrame with
the documented column order. -/
theorem hud_output_geos_and_columns_witness :
    (∀ r ∈ (HudOut.mk ["year", "hud_fmr_2br", "geo_name"]
        [⟨2014, Cell.num (.fin 700), "Otter Tail County, Minnesota"⟩,
         ⟨2014, Cell.num (.fin 700), "Fergus Falls city, Minnesota"⟩]).recs,
      r.geo_name ∈ hudGeoNames) ∧
    (HudOut.mk ["year", "geo_name", "hud_fmr_2br"] []).cols =
      ["year", "geo_name", "hud_fmr_2br"] :=
  ⟨(hud_output_geos_and_columns envGood [2014] _ (by rfl)).1,
   (hud_output_geos_and_columns envNone [2013] _ (by rfl)).2 rfl⟩

/-- One unfolding step of `normalizeCell` on a text cell. -/
theorem normalizeCell_str (s : String) :
    normalizeCell (Cell.str s) =
      (if pyStrip (stripCommas s) = "" then .ok none
       else
        match pyFloat (pyStrip (stripCommas s)) with
        | some v => .ok (some v)
        | none => .error "ValueError") := rfl

/-- C3 counterexample: a table whose first estimate cell is the text
"N/A" makes `_load_single_table` raise `ValueError` — the whole
extraction aborts (no records, the parseable "850" cell is lost)
instead of downgrading the cell to an absent value. -/
theorem acs_parse_failure_aborts :
    load_single_table tNA 2022 = .error "ValueError" := by rfl

/-- C3 (amended): absent/null cells normalize to absent; text cells
have commas and surrounding whitespace stripped and are parsed as
floats ("96,339" gives 96339.0); an empty string after stripping gives
absent, not zero; but a non-empty string that fails float parsing
raises `ValueError`, aborting the extraction, rather than being
downgraded to absent. -/
theorem value_normalization_behavior (s : String) :
    normalizeCell Cell.null = .ok none ∧
    normalizeCell (Cell.str "96,339") = .ok (some (.fin 96339)) ∧
    normalizeCell (Cell.str "") = .ok none ∧
    (pyStrip (stripCommas s) = "" → normalizeCell (Cell.str s) = .ok none) ∧
    (∀ v, pyFloat (pyStrip (stripCommas s)) = some v →
      normalizeCell (Cell.str s) = .ok (some v)) ∧
    (pyStrip (stripCommas s) ≠ "" → pyFloat (pyStrip (stripCommas s)) = none →
      normalizeCell (Cell.str s) = .error "ValueError") := by
  refine ⟨by rfl, by rfl, by rfl, ?_, ?_, ?_⟩
  · intro hc
    rw [normalizeCell_str, if_pos hc]
  · intro v hv
    by_cases hc : pyStrip (stripCommas s) = ""
    · rw [hc] at hv
      rw [show pyFloat "" = (none : Option PFloat) from rfl] at hv
      simp at hv
    · rw [normalizeCell_str, if_neg hc, hv]
  · intro hne hnone
    rw [normalizeCell_str, if_neg hne, hnone]

/-- C3 witness: a padded thousands-separated cell parses, and the
unparseable "N/A" raises. -/
theorem value_normalization_behavior_witness :
    normalizeCell (Cell.str " 96,339 ") = .ok (some (.fin 96339)) ∧
    normalizeCell (Cell.str "N/A") = .error "ValueError" :=
  ⟨(value_normalization_behavior " 96,339 ").2.2.2.2.1 (.fin 96339) (by rfl),
   (value_normalization_behavior "N/A").2.2.2.2.2 (by decide) (by rfl)⟩

/-- The record loop over mapped estimate columns: one record per
geography, with the geography text taken before the "!!" separator and
the normalized value (absent stored as `NaN`). -/
theorem buildRecs_map_est (y : Int) (df : RawTable) (row : List Cell)
    (vs : String → Option PFloat) (geos : List String)
    (h : ∀ g ∈ geos, normalizeCell (df.getCell row (g ++ "!!Estimate")) = .ok (vs g)) :
    buildRecs y df row (geos.map (fun g => g ++ "!!Estimate")) =
      .ok (geos.map (fun g =>
        ⟨y, beforeSep "!!" (g ++ "!!Estimate"), (vs g).getD .nan⟩)) := by
  induction geos with
  | nil => rfl
  | cons g gs ih =>
    have hg := h g (List.mem_cons_self g gs)
    have hrest := ih (fun g' hg' => h g' (List.mem_cons_of_mem g hg'))
    simp only [List.map_cons]
    unfold buildRecs
    rw [hg]
    dsimp only
    rw [hrest]

/-- C5 (amended): on a table with a "Median" label row and N
Estimate / Margin-of-Error column pairs, whenever every estimate cell
normalizes (is absent, empty, or parses as a number), the extractor
emits exactly N records, one per Estimate column, each geography being
the column text before the "!!" separator; and on any table with no
"!!Estimate" column at all the extraction fails.  (Without the
normalization proviso the original claim is false: one unparseable
cell aborts the whole extraction.) -/
theorem table_extractor_shape :
    (∀ (y : Int) (geos : List String) (row : List Cell) (vs : String → Option PFloat)
      (df : RawTable),
      df.cols = "Label (Grouping)" ::
        geos.flatMap (fun g => [g ++ "!!Estimate", g ++ "!!Margin of Error"]) →
      df.rows = [row] →
      isMedianRow df row = true →
      (∀ g ∈ geos, normalizeCell (df.getCell row (g ++ "!!Estimate")) = .ok (vs g)) →
      geos ≠ [] →
      load_single_table df y =
        .ok (geos.map (fun g =>
          ⟨y, beforeSep "!!" (g ++ "!!Estimate"), (vs g).getD .nan⟩))) ∧
    (∀ (y : Int) (df : RawTable),
      df.cols.contains "Label (Grouping)" = true →
      df.rows ≠ [] →
      df.cols.filter (fun c => strEndsWith c "!!Estimate") = [] →
      load_single_table df y = .error "KeyError: no Estimate columns") := by
  constructor
  · intro y geos row vs df hcols hrows hmed hnorm hne
    have hlab : df.cols.contains "Label (Grouping)" = true := by
      rw [hcols]
      simp
    have hsel : selectMedianRow df = some row := by
      unfold selectMedianRow
      rw [hrows]
      simp [List.find?, hmed]
    have hfilt : df.cols.filter (fun c => strEndsWith c "!!Estimate") =
        geos.map (fun g => g ++ "!!Estimate") := by
      rw [hcols, List.filter_cons,
        show strEndsWith "Label (Grouping)" "!!Estimate" = false from rfl]
      simpa using filter_estimate_pairs geos
    unfold load_single_table
    rw [if_pos hlab, hsel]
    dsimp only
    rw [hfilt]
    cases geos with
    | nil => exact absurd rfl hne
    | cons g gs =>
      simp only [List.map_cons]
      have := buildRecs_map_est y df row vs (g :: gs) hnorm
      simp only [List.map_cons] at this
      exact this
  · intro y df hlab hrows hfilt
    have hrow : ∃ row, selectMedianRow df = some row := by
      unfold selectMedianRow
      cases hfind : df.rows.find? (isMedianRow df) with
      | some r => exact ⟨r, rfl⟩
      | none =>
        cases hr : df.rows with
        | nil => exact absurd hr hrows
        | cons a t => exact ⟨a, rfl⟩
    rcases hrow with ⟨row, hsel⟩
    unfold load_single_table
    rw [if_pos hlab, hsel]
    dsimp only
    rw [hfilt]

/-- C5 counterexample: a table with one proper Estimate/Margin pair and
a "Median" label row emits zero records (aborting with `ValueError`)
when the estimate cell is non-numeric text, not exactly N = 1
records. -/
theorem estimate_pair_parse_abort :
    load_single_table tBad5 2022 = .error "ValueError" := by rfl

/-- C5 witness: two Estimate/Margin pairs produce exactly two records,
from the Estimate columns only, with the geography text before the
separator. -/
theorem table_extractor_shape_witness :
    load_single_table tPairs 2022 =
      .ok [⟨2022, "Otter Tail County, Minnesota", .fin 850⟩,
           ⟨2022, "Hennepin County, Minnesota", .fin 1200⟩] := by
  rw [table_extractor_shape.1 2022
    ["Otter Tail County, Minnesota", "Hennepin County, Minnesota"]
    [.str "Median Gross Rent", .str "850", .str "25", .str "1,200", .str "40"]
    (fun g => if g = "Otter Tail County, Minnesota" then some (.fin 850)
      else some (.fin 1200))
    tPairs rfl rfl rfl
    (by
      intro g hg
      rcases List.mem_cons.1 hg with h | h
      · subst h; rfl
      · rcases List.mem_cons.1 h with h | h
        · subst h; rfl
        · cases h)
    (by decide)]
  rfl

/-- C7: every row of a successful `load_acs_affordability` result has
its `(year, geography)` key present in all three extracted tables —
income, home value, and rent — for that year; contrapositively, a
geography missing from even one of the three tables for a year never
appears in that year's reconciled output (inner-join semantics). -/
theorem reconciler_inner_join (env : AcsEnv) (years : List Int) (out : List AffRow)
    (h : load_acs_affordability env years = .ok out) :
    ∀ row ∈ out,
      (∃ inc, acsTable env row.year "B19013" = .ok inc ∧
        ∃ r ∈ inc, r.year = row.year ∧ r.geo_name = row.geo_name) ∧
      (∃ hv, acsTable env row.year "B25077" = .ok hv ∧
        ∃ r ∈ hv, r.year = row.year ∧ r.geo_name = row.geo_name) ∧
      (∃ rent, acsTable env row.year "B25064" = .ok rent ∧
        ∃ r ∈ rent, r.year = row.year ∧ r.geo_name = row.geo_name) := by
  unfold load_acs_affordability at h
  split at h
  · cases h
  · cases hy : yearFrames env years with
    | error e => rw [hy] at h; cases h
    | ok frames =>
      rw [hy] at h
      cases h
      intro row hrow
      rcases List.mem_map.1 hrow with ⟨j, hjf, hjr⟩
      have hjmem : j ∈ frames := List.mem_of_mem_filter hjf
      rcases mem_yearFrames env years frames hy j hjmem with
        ⟨y, _, inc, hv, rent, h1, h2, h3, hj3⟩
      rcases mem_merge3 _ _ j hj3 with ⟨j2, hj2, rr, hrr, e1, e2, e3, e4⟩
      rcases mem_merge2 _ _ j2 hj2 with ⟨xi, hxi, xh, hxh, f1, f2, f3, f4⟩
      have hry : row.year = j.year := by rw [← hjr]; rfl
      have hrg : row.geo_name = j.geo_name := by rw [← hjr]; rfl
      have hxiy : xi.year = y := acsTable_year env y "B19013" inc h1 xi hxi
      have hrowy : row.year = y := by rw [hry, e1, f1, hxiy]
      have g1 : xi.year = row.year := by rw [hry, e1, f1]
      have g2 : xi.geo_name = row.geo_name := by rw [hrg, e2, f2]
      have g3 : xh.year = row.year := by rw [hry, e1, f1]; exact f3
      have g4 : xh.geo_name = row.geo_name := by rw [hrg, e2, f2]; exact f4
      have g5 : rr.year = row.year := by rw [hry, e1]; exact e3
      have g6 : rr.geo_name = row.geo_name := by rw [hrg, e2]; exact e4
      exact ⟨⟨inc, by rw [hrowy]; exact h1, xi, hxi, g1, g2⟩,
             ⟨hv, by rw [hrowy]; exact h2, xh, hxh, g3, g4⟩,
             ⟨rent, by rw [hrowy]; exact h3, rr, hrr, g5, g6⟩⟩

/-- C7 witness: the fixture output row (Otter Tail County) is present
in all three 2022 tables; Becker County, present in income and home
value but absent from rent, does not appear in the output `[rowA]`. -/
theorem reconciler_inner_join_witness :
    (∃ inc, acsTable envA rowA.year "B19013" = .ok inc ∧
      ∃ r ∈ inc, r.year = rowA.year ∧ r.geo_name = rowA.geo_name) ∧
    (∃ hv, acsTable envA rowA.year "B25077" = .ok hv ∧
      ∃ r ∈ hv, r.year = rowA.year ∧ r.geo_name = rowA.geo_name) ∧
    (∃ rent, acsTable envA rowA.year "B25064" = .ok rent ∧
      ∃ r ∈ rent, r.year = rowA.year ∧ r.geo_name = rowA.geo_name) :=
  reconciler_inner_join envA [2022] [rowA] evalA rowA (List.mem_singleton.mpr rfl)
